import Mathlib

set_option maxHeartbeats 1000000

/-!
Shallow embedding of `custom_components/blnet/switch.py`.

The module defines two Home Assistant switch entities over a shared
`communication` collaborator.  The collaborator is modelled as a value
passed explicitly to `update` (a marker plus a cached data mapping);
the entities' mutable attributes become structure fields, and the
command dispatches (`turn_on`, `turn_off`, `turn_auto`) are returned
as an explicit list of emitted commands.
-/

/-- `homeassistant.const.STATE_UNKNOWN`. -/
def STATE_UNKNOWN : String := "unknown"

/-- `homeassistant.const.STATE_ON`. -/
def STATE_ON : String := "on"

/-- `homeassistant.const.STATE_OFF`. -/
def STATE_OFF : String := "off"

/-- One cached record of `communication.data`; the code reads the keys
`value`, `friendly_name` and `mode` via `.get`, which yields `None`
when the key is absent, hence the `Option` fields. -/
structure SensorData where
  value : Option String
  friendly_name : Option String
  mode : Option String
deriving DecidableEq, Repr

/-- The `communication` collaborator as seen by this layer: the
`last_updated()` marker and the cached `data` mapping from blnet id to
record. -/
structure Comm where
  lastUpdated : Nat
  data : String → Option SensorData

/-- A command dispatched to the collaborator, carrying the channel id. -/
inductive Command where
  | turn_on (id : String)
  | turn_off (id : String)
  | turn_auto (id : String)
deriving DecidableEq, Repr

/-- Python `"{}".format` on an optional string: `None` prints as "None". -/
def pyStr : Option String → String
  | none => "None"
  | some s => s

/-- Mutable attributes of `BLNETSwitch` (the output switch). -/
structure BLNETSwitch where
  blnet_id : String
  id : String
  name : String
  friendly_name : Option String
  unique_id : String
  state : String
  assumed_state : Bool
  icon : Option String
  mode : Option String
  last_updated : Option Nat
deriving DecidableEq, Repr

/-- `BLNETSwitch.__init__(switch_id, blnet_id, comm)`. -/
def BLNETSwitch.init (switch_id blnet_id : String) : BLNETSwitch :=
  { blnet_id := blnet_id
    id := switch_id
    name := blnet_id
    friendly_name := some blnet_id
    unique_id := switch_id ++ "_" ++ blnet_id
    state := STATE_UNKNOWN
    assumed_state := true
    icon := none
    mode := some STATE_UNKNOWN
    last_updated := none }

/-- `BLNETSwitch.update(self)`. -/
def BLNETSwitch.update (s : BLNETSwitch) (comm : Comm) : BLNETSwitch :=
  let last_blnet_update := comm.lastUpdated
  if some last_blnet_update = s.last_updated then s
  else
    match comm.data s.blnet_id with
    | none => s
    | some sensor_data =>
      let st := if sensor_data.value = some "EIN" then STATE_ON else STATE_OFF
      { s with
        friendly_name := sensor_data.friendly_name
        state := st
        icon := some (if st = STATE_ON then "mdi:flash" else "mdi:flash-off")
        mode := sensor_data.mode
        last_updated := some last_blnet_update
        assumed_state := false }

/-- `BLNETSwitch.turn_on(self)`: new state plus emitted commands. -/
def BLNETSwitch.turn_on (s : BLNETSwitch) : BLNETSwitch × List Command :=
  ({ s with state := STATE_ON, assumed_state := true }, [Command.turn_on s.id])

/-- `BLNETSwitch.turn_off(self)`: new state plus emitted commands. -/
def BLNETSwitch.turn_off (s : BLNETSwitch) : BLNETSwitch × List Command :=
  ({ s with state := STATE_OFF, assumed_state := true }, [Command.turn_off s.id])

/-- `BLNETSwitch.is_on`. -/
def BLNETSwitch.is_on (s : BLNETSwitch) : Bool :=
  s.state = STATE_ON

/-- Mutable attributes of `BLNETModeSwitch` (the mode switch);
`activated` is the mirrored raw activation value (`self._activated`),
initialised from `self._state`, later overwritten by
`sensor_data.get('value')`. -/
structure BLNETModeSwitch where
  blnet_id : String
  id : String
  name : String
  friendly_name : String
  unique_id : String
  state : String
  activated : Option String
  assumed_state : Bool
  icon : Option String
  last_updated : Option Nat
deriving DecidableEq, Repr

/-- `BLNETModeSwitch.__init__(switch_id, blnet_id, comm)`. -/
def BLNETModeSwitch.init (switch_id blnet_id : String) : BLNETModeSwitch :=
  { blnet_id := blnet_id
    id := switch_id
    name := blnet_id ++ " automated"
    friendly_name := blnet_id
    unique_id := switch_id ++ "_" ++ blnet_id ++ "_mode"
    state := STATE_UNKNOWN
    activated := some STATE_UNKNOWN
    assumed_state := true
    icon := none
    last_updated := none }

/-- `BLNETModeSwitch.update(self)`. -/
def BLNETModeSwitch.update (s : BLNETModeSwitch) (comm : Comm) : BLNETModeSwitch :=
  let last_blnet_update := comm.lastUpdated
  if some last_blnet_update = s.last_updated then s
  else
    match comm.data s.blnet_id with
    | none => s
    | some sensor_data =>
      let st := if sensor_data.mode ≠ some "HAND" then STATE_ON else STATE_OFF
      { s with
        friendly_name := pyStr sensor_data.friendly_name ++ " automated"
        state := st
        icon := some (if st = STATE_ON then "mdi:cog" else "mdi:cog-off")
        activated := sensor_data.value
        last_updated := some last_blnet_update
        assumed_state := false }

/-- `BLNETModeSwitch.turn_on(self)`: dispatches `turn_auto`. -/
def BLNETModeSwitch.turn_on (s : BLNETModeSwitch) : BLNETModeSwitch × List Command :=
  ({ s with state := STATE_ON, assumed_state := true }, [Command.turn_auto s.id])

/-- `BLNETModeSwitch.turn_off(self)`: re-issues the raw command that
matches the mirrored activation value, switching the device to manual. -/
def BLNETModeSwitch.turn_off (s : BLNETModeSwitch) : BLNETModeSwitch × List Command :=
  ({ s with state := STATE_OFF, assumed_state := true },
   [if s.activated = some "EIN" then Command.turn_on s.id else Command.turn_off s.id])

/-- `BLNETModeSwitch.is_on`. -/
def BLNETModeSwitch.is_on (s : BLNETModeSwitch) : Bool :=
  s.state = STATE_ON

/-- One externally driven call on an entity: a poll against a given
collaborator snapshot, or a user command. -/
inductive SwOp where
  | poll (comm : Comm)
  | activate
  | deactivate

/-- Dispatch one operation on an output switch (command output dropped). -/
def BLNETSwitch.step (s : BLNETSwitch) : SwOp → BLNETSwitch
  | SwOp.poll c => s.update c
  | SwOp.activate => (s.turn_on).1
  | SwOp.deactivate => (s.turn_off).1

/-- Run a sequence of operations on an output switch. -/
def BLNETSwitch.run (s : BLNETSwitch) (ops : List SwOp) : BLNETSwitch :=
  ops.foldl BLNETSwitch.step s

/-- Dispatch one operation on a mode switch (command output dropped). -/
def BLNETModeSwitch.step (s : BLNETModeSwitch) : SwOp → BLNETModeSwitch
  | SwOp.poll c => s.update c
  | SwOp.activate => (s.turn_on).1
  | SwOp.deactivate => (s.turn_off).1

/-- Run a sequence of operations on a mode switch. -/
def BLNETModeSwitch.run (s : BLNETModeSwitch) (ops : List SwOp) : BLNETModeSwitch :=
  ops.foldl BLNETModeSwitch.step s

/-! ## Helper lemmas -/

/-- A failed poll (no cached record for the label) is a no-op on the
output switch, whatever the marker does. -/
lemma BLNETSwitch.update_nodata (s : BLNETSwitch) (c : Comm)
    (h : c.data s.blnet_id = none) : s.update c = s := by
  by_cases hm : some c.lastUpdated = s.last_updated <;>
    simp [BLNETSwitch.update, hm, h]

/-- A failed poll (no cached record for the label) is a no-op on the
mode switch, whatever the marker does. -/
lemma BLNETModeSwitch.update_nodata_mode (s : BLNETModeSwitch) (c : Comm)
    (h : c.data s.blnet_id = none) : s.update c = s := by
  by_cases hm : some c.lastUpdated = s.last_updated <;>
    simp [BLNETModeSwitch.update, hm, h]

/-- Polling twice against the same collaborator snapshot changes
nothing on the second poll (output switch). -/
lemma BLNETSwitch.update_update (s : BLNETSwitch) (c : Comm) :
    (s.update c).update c = s.update c := by
  by_cases hm : some c.lastUpdated = s.last_updated
  · simp [BLNETSwitch.update, hm]
  · cases hd : c.data s.blnet_id with
    | none => simp [BLNETSwitch.update, hm, hd]
    | some d => simp [BLNETSwitch.update, hm, hd]

/-- Polling twice against the same collaborator snapshot changes
nothing on the second poll (mode switch). -/
lemma BLNETModeSwitch.update_update_mode (s : BLNETModeSwitch) (c : Comm) :
    (s.update c).update c = s.update c := by
  by_cases hm : some c.lastUpdated = s.last_updated
  · simp [BLNETModeSwitch.update, hm]
  · cases hd : c.data s.blnet_id with
    | none => simp [BLNETModeSwitch.update, hm, hd]
    | some d => simp [BLNETModeSwitch.update, hm, hd]

/-! ## Claim theorems -/

/-- C1: `BLNETModeSwitch.turn_off` (deactivate) issues exactly one
collaborator command — `turn_on(id)` when the mirrored activation
value equals "EIN", otherwise `turn_off(id)` — never `turn_auto` —
and afterwards `state = STATE_OFF` and `assumed_state = true`. -/
theorem modeSwitch_deactivate_spec (s : BLNETModeSwitch) :
    (s.turn_off).2 =
      (if s.activated = some "EIN" then [Command.turn_on s.id]
       else [Command.turn_off s.id]) ∧
    (s.turn_off).2.length = 1 ∧
    (∀ i, Command.turn_auto i ∉ (s.turn_off).2) ∧
    (s.turn_off).1.state = STATE_OFF ∧
    (s.turn_off).1.assumed_state = true := by
  refine ⟨?_, rfl, ?_, rfl, rfl⟩
  · by_cases h : s.activated = some "EIN" <;> simp [BLNETModeSwitch.turn_off, h]
  · intro i
    by_cases h : s.activated = some "EIN" <;> simp [BLNETModeSwitch.turn_off, h]

/-- C3: a poll whose marker differs from the stored one but whose
cached mapping has no record for the entity's label leaves the entity
(of either class) completely unchanged. -/
theorem poll_missing_record_noop (s : BLNETSwitch) (t : BLNETModeSwitch)
    (c c' : Comm)
    (hm : some c.lastUpdated ≠ s.last_updated)
    (hd : c.data s.blnet_id = none)
    (hm' : some c'.lastUpdated ≠ t.last_updated)
    (hd' : c'.data t.blnet_id = none) :
    s.update c = s ∧ t.update c' = t :=
  ⟨s.update_nodata c hd, t.update_nodata_mode c' hd'⟩

/-- Witness for C3 at concrete inputs. -/
theorem poll_missing_record_noop_witness :
    (BLNETSwitch.init "1" "pump").update ⟨5, fun _ => none⟩ =
      BLNETSwitch.init "1" "pump" ∧
    (BLNETModeSwitch.init "1" "pump").update ⟨5, fun _ => none⟩ =
      BLNETModeSwitch.init "1" "pump" :=
  poll_missing_record_noop (BLNETSwitch.init "1" "pump")
    (BLNETModeSwitch.init "1" "pump") ⟨5, fun _ => none⟩ ⟨5, fun _ => none⟩
    (by decide) rfl (by decide) rfl

/-- C4: a poll whose marker equals the stored one is a no-op, and in
particular a second poll directly after a first one against an
unchanged collaborator snapshot mutates nothing (both classes). -/
theorem poll_unchanged_marker_noop (s : BLNETSwitch) (t : BLNETModeSwitch)
    (c c' : Comm) :
    (some c.lastUpdated = s.last_updated → s.update c = s) ∧
    (s.update c).update c = s.update c ∧
    (some c'.lastUpdated = t.last_updated → t.update c' = t) ∧
    (t.update c').update c' = t.update c' := by
  refine ⟨fun h => ?_, s.update_update c, fun h => ?_, t.update_update_mode c'⟩
  · simp [BLNETSwitch.update, h]
  · simp [BLNETModeSwitch.update, h]

/-- Witness for C4 at concrete inputs with equal markers. -/
theorem poll_unchanged_marker_noop_witness :
    ({ BLNETSwitch.init "1" "pump" with last_updated := some 5 } :
        BLNETSwitch).update ⟨5, fun _ => none⟩ =
      { BLNETSwitch.init "1" "pump" with last_updated := some 5 } ∧
    ({ BLNETModeSwitch.init "1" "pump" with last_updated := some 5 } :
        BLNETModeSwitch).update ⟨5, fun _ => none⟩ =
      { BLNETModeSwitch.init "1" "pump" with last_updated := some 5 } := by
  have h := poll_unchanged_marker_noop
    { BLNETSwitch.init "1" "pump" with last_updated := some 5 }
    { BLNETModeSwitch.init "1" "pump" with last_updated := some 5 }
    ⟨5, fun _ => none⟩ ⟨5, fun _ => none⟩
  exact ⟨h.1 (by decide), h.2.2.1 (by decide)⟩

/-- C5: a successful output-switch poll (changed marker, record
present) sets `state`/`icon` from the record's raw value ("EIN" gives
ON with 'mdi:flash', anything else OFF with 'mdi:flash-off'), mirrors
`mode` and `friendly_name`, stores the new marker, and clears
`assumed_state`. -/
theorem outputSwitch_poll_present (s : BLNETSwitch) (c : Comm) (d : SensorData)
    (hm : some c.lastUpdated ≠ s.last_updated)
    (hd : c.data s.blnet_id = some d) :
    ((s.update c).state = STATE_ON ↔ d.value = some "EIN") ∧
    ((s.update c).icon = some "mdi:flash" ↔ d.value = some "EIN") ∧
    (d.value ≠ some "EIN" →
      (s.update c).state = STATE_OFF ∧ (s.update c).icon = some "mdi:flash-off") ∧
    (s.update c).mode = d.mode ∧
    (s.update c).friendly_name = d.friendly_name ∧
    (s.update c).last_updated = some c.lastUpdated ∧
    (s.update c).assumed_state = false := by
  by_cases hv : d.value = some "EIN" <;>
    simp [BLNETSwitch.update, hm, hd, hv, STATE_ON, STATE_OFF]

/-- Witness for C5 at a concrete record with value "EIN". -/
theorem outputSwitch_poll_present_witness :
    ((BLNETSwitch.init "3" "Pump").update
        ⟨7, fun l => if l = "Pump" then some ⟨some "EIN", some "Pump 1", some "AUTO"⟩ else none⟩).state
      = STATE_ON ∧
    ((BLNETSwitch.init "3" "Pump").update
        ⟨7, fun l => if l = "Pump" then some ⟨some "EIN", some "Pump 1", some "AUTO"⟩ else none⟩).assumed_state
      = false := by
  have h := outputSwitch_poll_present (BLNETSwitch.init "3" "Pump")
    ⟨7, fun l => if l = "Pump" then some ⟨some "EIN", some "Pump 1", some "AUTO"⟩ else none⟩
    ⟨some "EIN", some "Pump 1", some "AUTO"⟩ (by decide) (by decide)
  exact ⟨h.1.mpr rfl, h.2.2.2.2.2.2⟩

/-- C6: a successful mode-switch poll (changed marker, record present)
sets `state` to ON iff the record's mode is not the "HAND" sentinel,
to OFF iff it equals it, and mirrors the raw value into `activated`. -/
theorem modeSwitch_poll_present (t : BLNETModeSwitch) (c : Comm) (d : SensorData)
    (hm : some c.lastUpdated ≠ t.last_updated)
    (hd : c.data t.blnet_id = some d) :
    ((t.update c).state = STATE_ON ↔ d.mode ≠ some "HAND") ∧
    ((t.update c).state = STATE_OFF ↔ d.mode = some "HAND") ∧
    (t.update c).activated = d.value := by
  by_cases hv : d.mode = some "HAND" <;>
    simp [BLNETModeSwitch.update, hm, hd, hv, STATE_ON, STATE_OFF]

/-- Witness for C6 at a concrete record in manual mode. -/
theorem modeSwitch_poll_present_witness :
    ((BLNETModeSwitch.init "3" "Pump").update
        ⟨7, fun l => if l = "Pump" then some ⟨some "AUS", some "Pump 1", some "HAND"⟩ else none⟩).state
      = STATE_OFF ∧
    ((BLNETModeSwitch.init "3" "Pump").update
        ⟨7, fun l => if l = "Pump" then some ⟨some "AUS", some "Pump 1", some "HAND"⟩ else none⟩).activated
      = some "AUS" := by
  have h := modeSwitch_poll_present (BLNETModeSwitch.init "3" "Pump")
    ⟨7, fun l => if l = "Pump" then some ⟨some "AUS", some "Pump 1", some "HAND"⟩ else none⟩
    ⟨some "AUS", some "Pump 1", some "HAND"⟩ (by decide) (by decide)
  exact ⟨h.2.1.mpr rfl, h.2.2⟩

/-- C7: `turn_on` (activate) on either class sets `state = STATE_ON`
and `assumed_state = true` whatever the prior state, and issues
exactly one command carrying the entity's channel id: `turn_on` for
the output switch, `turn_auto` for the mode switch. -/
theorem activate_spec (s : BLNETSwitch) (t : BLNETModeSwitch) :
    (s.turn_on).1.state = STATE_ON ∧
    (s.turn_on).1.assumed_state = true ∧
    (s.turn_on).2 = [Command.turn_on s.id] ∧
    (t.turn_on).1.state = STATE_ON ∧
    (t.turn_on).1.assumed_state = true ∧
    (t.turn_on).2 = [Command.turn_auto t.id] :=
  ⟨rfl, rfl, rfl, rfl, rfl, rfl⟩

/-- C9: on a successful poll, a record with no `mode` entry makes the
mode switch ON (absent mode is treated as automatic), and a record
with no `value` entry makes the output switch OFF. -/
theorem poll_absent_keys (s : BLNETSwitch) (t : BLNETModeSwitch)
    (c c' : Comm) (d d' : SensorData)
    (hm : some c.lastUpdated ≠ s.last_updated)
    (hd : c.data s.blnet_id = some d)
    (hv : d.value = none)
    (hm' : some c'.lastUpdated ≠ t.last_updated)
    (hd' : c'.data t.blnet_id = some d')
    (hmo : d'.mode = none) :
    (s.update c).state = STATE_OFF ∧ (t.update c').state = STATE_ON := by
  constructor
  · simp [BLNETSwitch.update, hm, hd, hv]
  · simp [BLNETModeSwitch.update, hm', hd', hmo]

/-- Witness for C9 at concrete records missing the relevant keys. -/
theorem poll_absent_keys_witness :
    ((BLNETSwitch.init "3" "Pump").update
        ⟨7, fun l => if l = "Pump" then some ⟨none, some "Pump 1", some "AUTO"⟩ else none⟩).state
      = STATE_OFF ∧
    ((BLNETModeSwitch.init "3" "Pump").update
        ⟨7, fun l => if l = "Pump" then some ⟨some "AUS", some "Pump 1", none⟩ else none⟩).state
      = STATE_ON :=
  poll_absent_keys (BLNETSwitch.init "3" "Pump") (BLNETModeSwitch.init "3" "Pump")
    ⟨7, fun l => if l = "Pump" then some ⟨none, some "Pump 1", some "AUTO"⟩ else none⟩
    ⟨7, fun l => if l = "Pump" then some ⟨some "AUS", some "Pump 1", none⟩ else none⟩
    ⟨none, some "Pump 1", some "AUTO"⟩ ⟨some "AUS", some "Pump 1", none⟩
    (by decide) (by decide) rfl (by decide) (by decide) rfl

/-- A sequence of polls that never finds a record for the mode
switch's label leaves the mode switch unchanged. -/
lemma BLNETModeSwitch.run_polls_nodata (t : BLNETModeSwitch) :
    ∀ comms : List Comm, (∀ cc ∈ comms, cc.data t.blnet_id = none) →
      t.run (comms.map SwOp.poll) = t := by
  intro comms
  induction comms with
  | nil => intro _; rfl
  | cons c cs ih =>
    intro h
    have h1 := h c (List.mem_cons_self _ _)
    have hstep : BLNETModeSwitch.run t (List.map SwOp.poll (c :: cs)) =
        BLNETModeSwitch.run (t.update c) (List.map SwOp.poll cs) := rfl
    rw [hstep, t.update_nodata_mode c h1]
    exact ih fun cc hcc => h cc (List.mem_cons_of_mem _ hcc)

/-- C10: a freshly constructed mode switch, after any number of polls
that found no record for its label, still carries the UNKNOWN sentinel
in `activated` (not "EIN"), so its `turn_off` dispatches exactly
`turn_off(channelId)`, never `turn_on`. -/
theorem modeSwitch_fresh_deactivate (sid bid : String) (comms : List Comm)
    (h : ∀ cc ∈ comms, cc.data bid = none) :
    ((BLNETModeSwitch.init sid bid).run (comms.map SwOp.poll)).activated
        = some STATE_UNKNOWN ∧
    some STATE_UNKNOWN ≠ some "EIN" ∧
    (((BLNETModeSwitch.init sid bid).run (comms.map SwOp.poll)).turn_off).2
        = [Command.turn_off sid] := by
  have hr := (BLNETModeSwitch.init sid bid).run_polls_nodata comms h
  rw [hr]
  refine ⟨rfl, by decide, ?_⟩
  simp [BLNETModeSwitch.turn_off, BLNETModeSwitch.init, STATE_UNKNOWN]

/-- Witness for C10 with one failing poll. -/
theorem modeSwitch_fresh_deactivate_witness :
    (((BLNETModeSwitch.init "3" "Pump").run
        (([⟨5, fun _ => none⟩] : List Comm).map SwOp.poll)).turn_off).2
      = [Command.turn_off "3"] := by
  refine (modeSwitch_fresh_deactivate "3" "Pump" [⟨5, fun _ => none⟩] ?_).2.2
  intro cc hcc
  rw [List.mem_singleton.mp hcc]

/-- One output-switch poll either keeps `state` or sets it ON or OFF. -/
lemma BLNETSwitch.update_state_cases (s : BLNETSwitch) (c : Comm) :
    (s.update c).state = s.state ∨ (s.update c).state = STATE_ON ∨
      (s.update c).state = STATE_OFF := by
  by_cases hm : some c.lastUpdated = s.last_updated
  · left; simp [BLNETSwitch.update, hm]
  · cases hd : c.data s.blnet_id with
    | none => left; simp [BLNETSwitch.update, hm, hd]
    | some d =>
      by_cases hv : d.value = some "EIN"
      · right; left; simp [BLNETSwitch.update, hm, hd, hv]
      · right; right; simp [BLNETSwitch.update, hm, hd, hv]

/-- One output-switch step either keeps `state` or sets it ON or OFF. -/
lemma BLNETSwitch.step_state_cases (s : BLNETSwitch) (op : SwOp) :
    (s.step op).state = s.state ∨ (s.step op).state = STATE_ON ∨
      (s.step op).state = STATE_OFF := by
  cases op with
  | poll c => exact s.update_state_cases c
  | activate => right; left; rfl
  | deactivate => right; right; rfl

/-- A run either keeps the output switch's `state` or ends ON or OFF. -/
lemma BLNETSwitch.run_state_cases (s : BLNETSwitch) (ops : List SwOp) :
    (s.run ops).state = s.state ∨ (s.run ops).state = STATE_ON ∨
      (s.run ops).state = STATE_OFF := by
  induction ops generalizing s with
  | nil => left; rfl
  | cons op ops ih =>
    have hrun : s.run (op :: ops) = (s.step op).run ops := rfl
    rw [hrun]
    rcases ih (s.step op) with h | h | h
    · rw [h]; exact s.step_state_cases op
    · right; left; exact h
    · right; right; exact h

/-- A run never reintroduces the UNKNOWN state on an output switch. -/
lemma BLNETSwitch.run_ne_unknown (s : BLNETSwitch) (ops : List SwOp)
    (h : s.state ≠ STATE_UNKNOWN) : (s.run ops).state ≠ STATE_UNKNOWN := by
  rcases s.run_state_cases ops with h1 | h1 | h1 <;> rw [h1]
  · exact h
  · decide
  · decide

/-- A successful output-switch poll leaves `state` distinct from the
UNKNOWN sentinel. -/
lemma BLNETSwitch.update_success_ne_unknown (s : BLNETSwitch) (c : Comm)
    (d : SensorData) (hm : some c.lastUpdated ≠ s.last_updated)
    (hd : c.data s.blnet_id = some d) :
    (s.update c).state ≠ STATE_UNKNOWN := by
  by_cases hv : d.value = some "EIN" <;>
    simp [BLNETSwitch.update, hm, hd, hv, STATE_ON, STATE_OFF, STATE_UNKNOWN]

/-- An output-switch poll clears `assumed_state` only when the marker
changed and a record was found. -/
lemma BLNETSwitch.update_assumed (s : BLNETSwitch) (c : Comm)
    (hs : s.assumed_state = true) (h : (s.update c).assumed_state = false) :
    some c.lastUpdated ≠ s.last_updated ∧ ∃ d, c.data s.blnet_id = some d := by
  by_cases hm : some c.lastUpdated = s.last_updated
  · rw [show s.update c = s by simp [BLNETSwitch.update, hm], hs] at h
    exact absurd h (by decide)
  · refine ⟨hm, ?_⟩
    cases hd : c.data s.blnet_id with
    | none =>
      rw [s.update_nodata c hd, hs] at h
      exact absurd h (by decide)
    | some d => exact ⟨d, rfl⟩

/-- One mode-switch poll either keeps `state` or sets it ON or OFF. -/
lemma BLNETModeSwitch.update_state_cases_mode (s : BLNETModeSwitch) (c : Comm) :
    (s.update c).state = s.state ∨ (s.update c).state = STATE_ON ∨
      (s.update c).state = STATE_OFF := by
  by_cases hm : some c.lastUpdated = s.last_updated
  · left; simp [BLNETModeSwitch.update, hm]
  · cases hd : c.data s.blnet_id with
    | none => left; simp [BLNETModeSwitch.update, hm, hd]
    | some d =>
      by_cases hv : d.mode = some "HAND"
      · right; right; simp [BLNETModeSwitch.update, hm, hd, hv]
      · right; left; simp [BLNETModeSwitch.update, hm, hd, hv]

/-- One mode-switch step either keeps `state` or sets it ON or OFF. -/
lemma BLNETModeSwitch.step_state_cases_mode (s : BLNETModeSwitch) (op : SwOp) :
    (s.step op).state = s.state ∨ (s.step op).state = STATE_ON ∨
      (s.step op).state = STATE_OFF := by
  cases op with
  | poll c => exact s.update_state_cases_mode c
  | activate => right; left; rfl
  | deactivate => right; right; rfl

/-- A run either keeps the mode switch's `state` or ends ON or OFF. -/
lemma BLNETModeSwitch.run_state_cases_mode (s : BLNETModeSwitch) (ops : List SwOp) :
    (s.run ops).state = s.state ∨ (s.run ops).state = STATE_ON ∨
      (s.run ops).state = STATE_OFF := by
  induction ops generalizing s with
  | nil => left; rfl
  | cons op ops ih =>
    have hrun : s.run (op :: ops) = (s.step op).run ops := rfl
    rw [hrun]
    rcases ih (s.step op) with h | h | h
    · rw [h]; exact s.step_state_cases_mode op
    · right; left; exact h
    · right; right; exact h

/-- A run never reintroduces the UNKNOWN state on a mode switch. -/
lemma BLNETModeSwitch.run_ne_unknown_mode (s : BLNETModeSwitch) (ops : List SwOp)
    (h : s.state ≠ STATE_UNKNOWN) : (s.run ops).state ≠ STATE_UNKNOWN := by
  rcases s.run_state_cases_mode ops with h1 | h1 | h1 <;> rw [h1]
  · exact h
  · decide
  · decide

/-- A successful mode-switch poll leaves `state` distinct from the
UNKNOWN sentinel. -/
lemma BLNETModeSwitch.update_success_ne_unknown_mode (s : BLNETModeSwitch) (c : Comm)
    (d : SensorData) (hm : some c.lastUpdated ≠ s.last_updated)
    (hd : c.data s.blnet_id = some d) :
    (s.update c).state ≠ STATE_UNKNOWN := by
  by_cases hv : d.mode = some "HAND" <;>
    simp [BLNETModeSwitch.update, hm, hd, hv, STATE_ON, STATE_OFF, STATE_UNKNOWN]

/-- A mode-switch poll clears `assumed_state` only when the marker
changed and a record was found. -/
lemma BLNETModeSwitch.update_assumed_mode (s : BLNETModeSwitch) (c : Comm)
    (hs : s.assumed_state = true) (h : (s.update c).assumed_state = false) :
    some c.lastUpdated ≠ s.last_updated ∧ ∃ d, c.data s.blnet_id = some d := by
  by_cases hm : some c.lastUpdated = s.last_updated
  · rw [show s.update c = s by simp [BLNETModeSwitch.update, hm], hs] at h
    exact absurd h (by decide)
  · refine ⟨hm, ?_⟩
    cases hd : c.data s.blnet_id with
    | none =>
      rw [s.update_nodata_mode c hd, hs] at h
      exact absurd h (by decide)
    | some d => exact ⟨d, rfl⟩

/-- C8: along every reachable run, `state` stays within
{ON, OFF, UNKNOWN}; after a poll has successfully found matching data
the state is never UNKNOWN again; `assumed_state` is true at
construction, set to true by every command dispatch, and cleared only
by a poll that found matching data (both classes). -/
theorem entity_state_invariants (sid bid : String) (ops : List SwOp)
    (s : BLNETSwitch) (t : BLNETModeSwitch) (c c' : Comm) :
    (((BLNETSwitch.init sid bid).run ops).state = STATE_ON ∨
      ((BLNETSwitch.init sid bid).run ops).state = STATE_OFF ∨
      ((BLNETSwitch.init sid bid).run ops).state = STATE_UNKNOWN) ∧
    (((BLNETModeSwitch.init sid bid).run ops).state = STATE_ON ∨
      ((BLNETModeSwitch.init sid bid).run ops).state = STATE_OFF ∨
      ((BLNETModeSwitch.init sid bid).run ops).state = STATE_UNKNOWN) ∧
    (BLNETSwitch.init sid bid).assumed_state = true ∧
    (BLNETModeSwitch.init sid bid).assumed_state = true ∧
    (s.turn_on).1.assumed_state = true ∧
    (s.turn_off).1.assumed_state = true ∧
    (t.turn_on).1.assumed_state = true ∧
    (t.turn_off).1.assumed_state = true ∧
    (∀ d, some c.lastUpdated ≠ s.last_updated → c.data s.blnet_id = some d →
      ∀ ops2, ((s.update c).run ops2).state ≠ STATE_UNKNOWN) ∧
    (∀ d, some c'.lastUpdated ≠ t.last_updated → c'.data t.blnet_id = some d →
      ∀ ops2, ((t.update c').run ops2).state ≠ STATE_UNKNOWN) ∧
    (s.assumed_state = true → (s.update c).assumed_state = false →
      some c.lastUpdated ≠ s.last_updated ∧ ∃ d, c.data s.blnet_id = some d) ∧
    (t.assumed_state = true → (t.update c').assumed_state = false →
      some c'.lastUpdated ≠ t.last_updated ∧ ∃ d, c'.data t.blnet_id = some d) := by
  refine ⟨?_, ?_, rfl, rfl, rfl, rfl, rfl, rfl, ?_, ?_, s.update_assumed c,
    t.update_assumed_mode c'⟩
  · rcases (BLNETSwitch.init sid bid).run_state_cases ops with h | h | h
    · right; right; exact h
    · left; exact h
    · right; left; exact h
  · rcases (BLNETModeSwitch.init sid bid).run_state_cases_mode ops with h | h | h
    · right; right; exact h
    · left; exact h
    · right; left; exact h
  · intro d hm hd ops2
    exact (s.update c).run_ne_unknown ops2 (s.update_success_ne_unknown c d hm hd)
  · intro d hm hd ops2
    exact (t.update c').run_ne_unknown_mode ops2 (t.update_success_ne_unknown_mode c' d hm hd)

/-- Witness for C8 at a concrete run and a concrete successful poll. -/
theorem entity_state_invariants_witness :
    (((BLNETSwitch.init "3" "Pump").update
        ⟨7, fun l => if l = "Pump" then some ⟨some "EIN", none, none⟩ else none⟩).run
        [SwOp.activate, SwOp.deactivate]).state ≠ STATE_UNKNOWN ∧
    (some 7 ≠ (BLNETSwitch.init "3" "Pump").last_updated ∧
      ∃ d, (⟨7, fun l => if l = "Pump" then some ⟨some "EIN", none, none⟩ else none⟩ :
        Comm).data (BLNETSwitch.init "3" "Pump").blnet_id = some d) := by
  have h := entity_state_invariants "3" "Pump" [] (BLNETSwitch.init "3" "Pump")
    (BLNETModeSwitch.init "3" "Pump")
    ⟨7, fun l => if l = "Pump" then some ⟨some "EIN", none, none⟩ else none⟩
    ⟨7, fun l => if l = "Pump" then some ⟨some "EIN", none, none⟩ else none⟩
  refine ⟨h.2.2.2.2.2.2.2.2.1 ⟨some "EIN", none, none⟩ (by decide) (by decide)
      [SwOp.activate, SwOp.deactivate], ?_⟩
  exact h.2.2.2.2.2.2.2.2.2.2.1 rfl (by decide)

/-- C2 counterexample: two distinct (channelId, deviceLabel) pairs
produce the same `unique_id`, both within the output-switch class and
across the two classes, so the construction is not injective. -/
theorem uniqueId_not_injective :
    (BLNETSwitch.init "a_b" "c").unique_id = (BLNETSwitch.init "a" "b_c").unique_id ∧
    (("a_b", "c") : String × String) ≠ ("a", "b_c") ∧
    (BLNETSwitch.init "1" "x_mode").unique_id =
      (BLNETModeSwitch.init "1" "x").unique_id := by
  refine ⟨?_, by decide, ?_⟩ <;> decide

/-- Splitting at a separator character absent from both prefixes is
injective. -/
lemma append_sep_inj {x : Char} :
    ∀ {a : List Char} {c b d : List Char}, x ∉ a → x ∉ c →
      a ++ x :: b = c ++ x :: d → a = c ∧ b = d := by
  intro a
  induction a with
  | nil =>
    intro c b d _ hc h
    cases c with
    | nil =>
      rw [List.nil_append, List.nil_append] at h
      injection h with h1 h2
      exact ⟨rfl, h2⟩
    | cons z zs =>
      rw [List.nil_append, List.cons_append] at h
      injection h with h1 h2
      subst h1
      exact absurd (List.mem_cons_self _ _) hc
  | cons y ys ih =>
    intro c b d ha hc h
    cases c with
    | nil =>
      rw [List.cons_append, List.nil_append] at h
      injection h with h1 h2
      subst h1
      exact absurd (List.mem_cons_self _ _) ha
    | cons z zs =>
      rw [List.cons_append, List.cons_append] at h
      injection h with h1 h2
      subst h1
      have ha' : x ∉ ys := fun hx => ha (List.mem_cons_of_mem _ hx)
      have hc' : x ∉ zs := fun hx => hc (List.mem_cons_of_mem _ hx)
      obtain ⟨h3, h4⟩ := ih ha' hc' h2
      exact ⟨by rw [h3], h4⟩

/-- Character data of an output-switch `unique_id`. -/
lemma uid_data (sid bid : String) :
    (sid ++ "_" ++ bid).data = sid.data ++ '_' :: bid.data := by
  rw [String.data_append, String.data_append, List.append_assoc]
  rfl

/-- Character data of a mode-switch `unique_id`. -/
lemma uid_mode_data (sid bid : String) :
    (sid ++ "_" ++ bid ++ "_mode").data =
      sid.data ++ '_' :: (bid.data ++ '_' :: ['m', 'o', 'd', 'e']) := by
  rw [String.data_append, String.data_append, String.data_append,
    List.append_assoc, List.append_assoc]
  rfl

/-- C2 amended: when neither the channel id nor the device label
contains an underscore, `unique_id` is injective across all output
switches and mode switches (the separator-based construction cannot
collide within a class, and the `"_mode"` suffix separates the two
classes). -/
theorem uniqueId_injective_no_underscore (sid1 bid1 sid2 bid2 : String)
    (h1 : '_' ∉ sid1.data) (h2 : '_' ∉ bid1.data)
    (h3 : '_' ∉ sid2.data) (h4 : '_' ∉ bid2.data) :
    ((BLNETSwitch.init sid1 bid1).unique_id = (BLNETSwitch.init sid2 bid2).unique_id →
      sid1 = sid2 ∧ bid1 = bid2) ∧
    ((BLNETModeSwitch.init sid1 bid1).unique_id =
        (BLNETModeSwitch.init sid2 bid2).unique_id →
      sid1 = sid2 ∧ bid1 = bid2) ∧
    (BLNETSwitch.init sid1 bid1).unique_id ≠
      (BLNETModeSwitch.init sid2 bid2).unique_id := by
  have e1 : (BLNETSwitch.init sid1 bid1).unique_id = sid1 ++ "_" ++ bid1 := rfl
  have e2 : (BLNETSwitch.init sid2 bid2).unique_id = sid2 ++ "_" ++ bid2 := rfl
  have e3 : (BLNETModeSwitch.init sid1 bid1).unique_id =
      sid1 ++ "_" ++ bid1 ++ "_mode" := rfl
  have e4 : (BLNETModeSwitch.init sid2 bid2).unique_id =
      sid2 ++ "_" ++ bid2 ++ "_mode" := rfl
  refine ⟨?_, ?_, ?_⟩
  · intro h
    rw [e1, e2] at h
    have hd := congrArg String.data h
    rw [uid_data, uid_data] at hd
    obtain ⟨ha, hb⟩ := append_sep_inj h1 h3 hd
    exact ⟨String.ext ha, String.ext hb⟩
  · intro h
    rw [e3, e4] at h
    have hd := congrArg String.data h
    rw [uid_mode_data, uid_mode_data] at hd
    obtain ⟨ha, hb⟩ := append_sep_inj h1 h3 hd
    obtain ⟨hb', -⟩ := append_sep_inj h2 h4 hb
    exact ⟨String.ext ha, String.ext hb'⟩
  · intro h
    rw [e1, e4] at h
    have hd := congrArg String.data h
    rw [uid_data, uid_mode_data] at hd
    obtain ⟨-, hb⟩ := append_sep_inj h1 h3 hd
    exact h2 (hb ▸ List.mem_append_right _ (List.mem_cons_self _ _))

/-- Witness for the amended C2: underscore-free identifiers, applied
across the two classes. -/
theorem uniqueId_injective_no_underscore_witness :
    (BLNETSwitch.init "a" "b").unique_id ≠
      (BLNETModeSwitch.init "a" "b").unique_id :=
  (uniqueId_injective_no_underscore "a" "b" "a" "b"
    (by decide) (by decide) (by decide) (by decide)).2.2
